import Mathlib

/-!
Verification development for the DigiFlow scheduler front end.

Each definition below is a shallow embedding of a function or component of
the TypeScript source.  Wall-clock times and instants are modelled as
integer minute counts (JavaScript `Date.UTC` normalises out-of-range
calendar fields, so the calendar-field representation is in exact
bijection with linear minute counts).  Strings are modelled as Lean
`String`s, nullable fields as `Option`, and JavaScript objects as
structures.
-/

namespace DigiFlow

/-! ## Operator queue data model (api/operatorApi.ts, rich shape) -/

/-- `WaitingInfo` from operatorApi.ts: the blocking predecessor step. -/
structure WaitingInfo where
  step_name : String
  status : String
deriving Repr, DecidableEq

/-- `OperatorJob` from operatorApi.ts. -/
structure OperatorJob where
  id : Nat
  job_id_code : String
  product_name : Option String
  quantity_to_produce : Nat
  priority : Nat
  status : String
deriving Repr, DecidableEq

/-- `MachineQueue` from operatorApi.ts (the rich shape used by the
machine-task page that imports `pauseTask`/`cancelTask`). -/
structure MachineQueue where
  machine_name : String
  current_job : Option OperatorJob
  next_task_in_sequence : Option OperatorJob
  is_next_task_ready : Bool
  waiting_for : Option WaitingInfo
deriving Repr, DecidableEq

/-! ## Machine-task page rendering (pages/Operator/MachineTask.tsx) -/

/-- JavaScript `String.prototype.toLowerCase` on the ASCII status strings
used by the code (kernel-reducible, unlike `String.toLower`). -/
def strToLower (s : String) : String := String.mk (s.data.map Char.toLower)

/-- The action controls the machine-task footer can render. -/
inductive FooterButton where
  | pauseBtn (taskId : Nat)
  | finishBtn (taskId : Nat)
  | reportIssueBtn
  | cancelBtn (taskId : Nat)
  | resumeBtn (taskId : Nat)
  | startJobBtn (taskId : Nat)
deriving Repr, DecidableEq

/-- The footer of `MachineTaskPage`: which action buttons render for a given
queue.  Mirrors the IIFE in the footer: `in_progress` renders PAUSE and
FINISH; `paused`/`blocked` renders REPORT ISSUE, CANCEL and RESUME; else a
ready next task renders START JOB; else nothing. -/
def footerButtons (q : MachineQueue) : List FooterButton :=
  match q.current_job with
  | some j =>
    let s := strToLower j.status
    if s = "in_progress" then
      [FooterButton.pauseBtn j.id, FooterButton.finishBtn j.id]
    else if s = "paused" ∨ s = "blocked" then
      [FooterButton.reportIssueBtn, FooterButton.cancelBtn j.id, FooterButton.resumeBtn j.id]
    else
      match q.next_task_in_sequence with
      | some nj => if q.is_next_task_ready then [FooterButton.startJobBtn nj.id] else []
      | none => []
  | none =>
    match q.next_task_in_sequence with
    | some nj => if q.is_next_task_ready then [FooterButton.startJobBtn nj.id] else []
    | none => []

/-- The "Cannot Start Job" banner of `MachineTaskPage`: rendered iff a job is
displayed (`current_job || next_task_in_sequence`), the next task is not
ready, a `waiting_for` descriptor is present, and there is no current job.
Returns the explanation text built from the descriptor. -/
def waitingBanner (q : MachineQueue) : Option String :=
  match q.current_job, q.next_task_in_sequence with
  | none, some _ =>
    if q.is_next_task_ready then none
    else
      match q.waiting_for with
      | some w => some ("Previous step '" ++ w.step_name ++ "' is not complete yet.")
      | none => none
  | _, _ => none

/-! ## Report-issue modal (MachineTask.tsx, `ReportIssueModal`) -/

/-- The fixed enumerated reasons offered by the report-issue modal's
`<select>`. -/
def reportIssueReasons : List String :=
  ["Tool Breakage", "No Material", "Maintenance Needed", "Quality Check Failed"]

/-- All values the modal's `<select>` can hold: the empty placeholder plus
the fixed reasons. -/
def modalSelectableReasons : List String := "" :: reportIssueReasons

/-- The modal's Submit button: `disabled={!reason}`, so submission happens
only for a non-empty selected reason. -/
def modalSubmit (selected : String) : Option String :=
  if selected = "" then none else some selected

/-- `handleReportIssue` in `MachineTaskPage`: mutates only when a current
job exists and the reason is non-empty; the request carries the current
job's id and the reason. -/
def handleReportIssue (q : MachineQueue) (reason : String) : Option (Nat × String) :=
  match q.current_job with
  | some j => if reason = "" then none else some (j.id, reason)
  | none => none

/-! ## Operator action mutations (MachineTask.tsx, `useMutation` handlers)

Every operator action mutation is declared with `onSuccess: invalidateQueue`
and `onError: toast.error(...)`.  The view never calls `setQueryData` or any
local state setter with a task status: the displayed queue can change only
through a re-fetch of the `['machineQueue', machineIdCode]` key. -/

/-- The five operator actions wired to mutations on the machine-task page. -/
inductive ActionKind where
  | startAct | pauseAct | finishAct | cancelAct | reportIssueAct
deriving Repr, DecidableEq

/-- The fallback error-toast text of each mutation's `onError` handler. -/
def actionErrorToast : ActionKind → String
  | ActionKind.startAct => "Failed to start task."
  | ActionKind.pauseAct => "Failed to pause task."
  | ActionKind.finishAct => "Failed to finish task."
  | ActionKind.cancelAct => "Failed to cancel task."
  | ActionKind.reportIssueAct => "Failed to report issue."

/-- Client-side state of the machine-task view that an action handler can
touch: the queue data currently displayed (held by the query cache), the
list of cache keys invalidated so far, and the toasts shown so far. -/
structure OperatorViewState where
  machineIdCode : String
  displayedQueue : Option MachineQueue
  invalidatedKeys : List (List String)
  toasts : List String
deriving Repr, DecidableEq

/-- The query key of the machine queue: `['machineQueue', machineIdCode]`. -/
def machineQueueKey (machineIdCode : String) : List String :=
  ["machineQueue", machineIdCode]

/-- `invalidateQueue` in `MachineTaskPage`: invalidates the machine-queue
cache key and nothing else. -/
def invalidateQueue (s : OperatorViewState) : OperatorViewState :=
  { s with invalidatedKeys := s.invalidatedKeys ++ [machineQueueKey s.machineIdCode] }

/-- `onSuccess` of every operator action mutation: exactly `invalidateQueue`. -/
def onActionSuccess (_k : ActionKind) (s : OperatorViewState) : OperatorViewState :=
  invalidateQueue s

/-- `onError` of every operator action mutation:
`toast.error(e.response?.data?.detail || fallback)`; `detail` models the
server's error-detail field when present. -/
def onActionError (k : ActionKind) (detail : Option String)
    (s : OperatorViewState) : OperatorViewState :=
  { s with toasts := s.toasts ++ [detail.getD (actionErrorToast k)] }

/-! ## HTTP client wrapper (api/axios.ts) -/

/-- Substring test on character lists; models JavaScript
`String.prototype.includes`. -/
def listContainsSub (pat : List Char) : List Char → Bool
  | [] => pat.isEmpty
  | c :: rest => pat.isPrefixOf (c :: rest) || listContainsSub pat rest

/-- `pat` occurs as a substring of `s`; models `s.includes(pat)`. -/
def strIncludes (s pat : String) : Bool :=
  listContainsSub pat.toList s.toList

/-- An axios request as seen by the response interceptor: its URL, the
`_retry` flag, and its `Authorization` header. -/
structure HttpRequest where
  url : String
  retryFlag : Bool
  authHeader : Option String
deriving Repr, DecidableEq

/-- Client state the interceptor can touch: the `accessToken` entry of
`localStorage` and `window.location.href`. -/
structure ClientAuthState where
  storedToken : Option String
  location : String
deriving Repr, DecidableEq

/-- What the response interceptor resolves to. -/
inductive InterceptorOutcome where
  /-- `return apiClient(originalRequest)`: the original request is replayed. -/
  | replay (req : HttpRequest)
  /-- `return Promise.reject(error)`: the original error passes through. -/
  | rejectOriginal
  /-- `return Promise.reject(refreshError)` after a failed refresh. -/
  | rejectRefreshError
deriving Repr, DecidableEq

/-- Result of one pass through the response interceptor, with a count of
refresh calls it issued. -/
structure InterceptorResult where
  state : ClientAuthState
  outcome : InterceptorOutcome
  refreshAttempts : Nat
deriving Repr, DecidableEq

/-- The error branch of `apiClient.interceptors.response` in axios.ts.
`refreshResult` is the outcome of `POST /api/auth/refresh`: `some t` when
the refresh succeeds with a new access token, `none` when it fails.
The guard is the code's own test: status 401, `_retry` unset, and the URL
containing neither `'/auth/refresh'` nor `'/auth/login'`. -/
def responseInterceptor (req : HttpRequest) (status : Nat)
    (refreshResult : Option String) (st : ClientAuthState) : InterceptorResult :=
  if status = 401 ∧ req.retryFlag = false ∧
      strIncludes req.url "/auth/refresh" = false ∧
      strIncludes req.url "/auth/login" = false then
    match refreshResult with
    | some newToken =>
      { state := { st with storedToken := some newToken }
        outcome := InterceptorOutcome.replay
          { req with retryFlag := true, authHeader := some ("Bearer " ++ newToken) }
        refreshAttempts := 1 }
    | none =>
      { state := { storedToken := none, location := "/login" }
        outcome := InterceptorOutcome.rejectRefreshError
        refreshAttempts := 1 }
  else
    { state := st, outcome := InterceptorOutcome.rejectOriginal, refreshAttempts := 0 }

/-! ## Auth context (AuthContext.tsx, role-decoding version used by App.tsx) -/

/-- Auth-context state: the in-memory token, the decoded role, and the
`accessToken` entry of durable storage. -/
structure AuthState where
  token : Option String
  userRole : Option String
  storage : Option String
deriving Repr, DecidableEq

/-- `isAuthenticated = !!token`. -/
def isAuthenticated (s : AuthState) : Bool := s.token.isSome

/-- `login(newToken)` of the auth context.  `jwtDecode` is modelled by the
`decode` parameter: `none` when decoding throws (structurally malformed
token), `some none` when the token decodes to a payload lacking a `role`
claim (`decoded.role` is undefined), `some (some r)` when a role claim `r`
is present.  Only a throwing decode reaches the catch block, which merely
logs; any successful decode — role claim or not — sets the token, the
(possibly undefined) role, and durable storage. -/
def login (decode : String → Option (Option String)) (newToken : String)
    (s : AuthState) : AuthState :=
  match decode newToken with
  | some roleClaim =>
    { token := some newToken, userRole := roleClaim, storage := some newToken }
  | none => s

/-! ## Admin mutation handlers (SchedulePage, DowntimeEvents) -/

/-- Outcome of the awaited server call inside a try/catch handler:
success, or failure carrying the optional `error.response?.data?.detail`. -/
inductive ServerOutcome where
  | ok
  | err (detail : Option String)
deriving Repr, DecidableEq

/-- What one admin mutation handler did: the id it sent a request for (if
any), the cache keys it invalidated, and the notice it showed. -/
structure MutationEffect where
  request : Option Nat
  invalidatedKeys : List String
  notice : Option String
deriving Repr, DecidableEq

/-- The query key `SchedulePage` fetches the scheduled-task list under. -/
def schedulePageQueryKey : String := "scheduledTasks"

/-- `handleDelete` of `SchedulePage`: returns early unless `window.confirm`
is accepted; on server success toasts and invalidates the key
`'visibleTasks'`; on failure only toasts. -/
def handleDeleteScheduledTask (id : Nat) (confirmed : Bool)
    (outcome : ServerOutcome) : MutationEffect :=
  if ¬ confirmed then { request := none, invalidatedKeys := [], notice := none }
  else
    match outcome with
    | ServerOutcome.ok =>
      { request := some id, invalidatedKeys := ["visibleTasks"]
        notice := some "Deleted scheduled task." }
    | ServerOutcome.err detail =>
      { request := some id, invalidatedKeys := []
        notice := some (detail.getD "Delete failed") }

/-- `handleEditSubmit` of `SchedulePage`: sends the update, and on success
invalidates the key `'visibleTasks'`. -/
def handleEditScheduledTask (id : Nat) (outcome : ServerOutcome) : MutationEffect :=
  match outcome with
  | ServerOutcome.ok =>
    { request := some id, invalidatedKeys := ["visibleTasks"]
      notice := some "Scheduled task updated." }
  | ServerOutcome.err detail =>
    { request := some id, invalidatedKeys := []
      notice := some (detail.getD "Update failed") }

/-- `handleDeleteEvent` of the downtime-events page: mutates only when
`window.confirm` is accepted; the delete mutation's `onSuccess` alerts and
invalidates the key `'downtimeEvents'`, its `onError` only alerts. -/
def handleDeleteDowntimeEvent (id : Nat) (confirmed : Bool)
    (outcome : ServerOutcome) : MutationEffect :=
  if ¬ confirmed then { request := none, invalidatedKeys := [], notice := none }
  else
    match outcome with
    | ServerOutcome.ok =>
      { request := some id, invalidatedKeys := ["downtimeEvents"]
        notice := some "Downtime event deleted successfully." }
    | ServerOutcome.err detail =>
      { request := some id, invalidatedKeys := []
        notice := some (detail.getD "Failed to delete downtime event.") }

/-- The CANCEL button of the machine-task footer: mutates the current job's
id only when `window.confirm` is accepted. -/
def cancelButtonClick (j : OperatorJob) (confirmed : Bool) : Option Nat :=
  if confirmed then some j.id else none

/-! ## Dashboard KPI (pages/Admin/Dashboard.tsx, `kpiMetrics`) -/

/-- A machine row as the dashboard uses it. -/
structure DashMachine where
  machine_id_code : String
  is_active : Bool
deriving Repr, DecidableEq

/-- A scheduled-task row as the dashboard uses it
(`t.assigned_machine.machine_id_code` flattened). -/
structure DashTask where
  status : String
  assigned_machine_code : String
deriving Repr, DecidableEq

/-- `new Set(scheduledTasks.filter(in_progress).map(machine code)).size`:
the number of distinct machine codes among in-progress tasks. -/
def machinesInProgressCount (tasks : List DashTask) : Nat :=
  ((tasks.filter (fun t => strToLower t.status = "in_progress")).map
    (fun t => t.assigned_machine_code)).dedup.length

/-- The dashboard machine-utilization KPI:
`activeMachines.length > 0 ? Math.round(machinesInProgress / activeMachines.length * 100) : 0`.
`Math.round` on a non-negative rational is `round`. -/
def utilization (machines : List DashMachine) (tasks : List DashTask) : ℤ :=
  let active := machines.filter (fun m => m.is_active)
  if active.length > 0 then
    round ((machinesInProgressCount tasks : ℚ) / (active.length : ℚ) * 100)
  else 0

/-! ## Production orders API (api/productionOrdersApi.ts) -/

/-- A production-order row restricted to what the progress fallback
touches. -/
structure PORecord where
  id : Nat
  progress : Option Nat
deriving Repr, DecidableEq

/-- The `data.map(order => ({...order, progress: order.progress ?? Math.floor(Math.random()*101)}))`
step of `getProductionOrders`.  The random source is modelled as a stream
`rand : ℕ → ℕ` of draws reduced mod 101 (`Math.floor(Math.random()*101)`
ranges over exactly 0..100); `k` counts the draws consumed so far. -/
def fillProgress (rand : Nat → Nat) : List PORecord → Nat → List PORecord
  | [], _ => []
  | o :: rest, k =>
    match o.progress with
    | some p => { o with progress := some p } :: fillProgress rand rest k
    | none => { o with progress := some (rand k % 101) } :: fillProgress rand rest (k + 1)

/-- `getProductionOrders`: the server response with the progress fallback
applied to each order lacking one. -/
def getProductionOrders (rand : Nat → Nat) (serverData : List PORecord) : List PORecord :=
  fillProgress rand serverData 0

/-! ## Downtime timezone pipeline

Wall-clock times and instants are minute counts (ℤ).  `localOffset` is the
viewer's UTC offset in minutes, constant across the write and the read
(no DST transition in between); Asia/Kolkata is fixed at +330 with no DST. -/

/-- The Asia/Kolkata offset, and the hard-coded `(hour - 5, minute - 30)`
shift of the API layer, in minutes. -/
def istOffsetMinutes : ℤ := 330

/-- `convertIstToUtcIso` of AddDowntimeEventsModal.tsx:
`formatInTimeZone(new Date(datetime), 'Asia/Kolkata', ...)`.
`new Date` parses the datetime-local string in the viewer's timezone
(instant = wall − localOffset); `formatInTimeZone` then renders that
instant as an Asia/Kolkata wall clock (instant + 330). -/
def modalConvertIstToUtcIso (localOffset wall : ℤ) : ℤ :=
  (wall - localOffset) + istOffsetMinutes

/-- `convertIstToUtcIso` of downtimeEventsApi.ts: splits the string into
calendar fields and builds `Date.UTC(year, month-1, day, hour-5, minute-30)`,
i.e. interprets the wall clock as IST and shifts it to UTC. -/
def apiConvertIstToUtcIso (wall : ℤ) : ℤ :=
  wall - istOffsetMinutes

/-- `new Date(iso).toLocaleString()` on the downtime-events page: renders a
UTC instant as the viewer's local wall clock. -/
def renderLocale (localOffset instant : ℤ) : ℤ :=
  instant + localOffset

/-- The full write-then-read pipeline for a downtime timestamp: modal
conversion, API-layer conversion, storage as UTC, local rendering. -/
def downtimeRoundTrip (localOffset wall : ℤ) : ℤ :=
  renderLocale localOffset (apiConvertIstToUtcIso (modalConvertIstToUtcIso localOffset wall))

/-! ## Helper lemmas -/

/-- Every record produced by `fillProgress` has a defined progress value
bounded by 100, provided the server-supplied values are. -/
lemma fillProgress_progress_bounded (rand : Nat → Nat) (l : List PORecord)
    (h : ∀ o ∈ l, ∀ p, o.progress = some p → p ≤ 100) :
    ∀ k, ∀ o ∈ fillProgress rand l k, ∃ p, o.progress = some p ∧ p ≤ 100 := by
  induction l with
  | nil => intro k o ho; simp [fillProgress] at ho
  | cons hd tl ih =>
    intro k o ho
    have hhd : ∀ p, hd.progress = some p → p ≤ 100 := h hd (List.mem_cons_self hd tl)
    have htl : ∀ o ∈ tl, ∀ p, o.progress = some p → p ≤ 100 :=
      fun o ho => h o (List.mem_cons_of_mem hd ho)
    cases hp : hd.progress with
    | some p =>
      rw [fillProgress, hp] at ho
      rcases List.mem_cons.mp ho with h1 | h1
      · exact ⟨p, by rw [h1], hhd p hp⟩
      · exact ih htl k o h1
    | none =>
      rw [fillProgress, hp] at ho
      rcases List.mem_cons.mp ho with h1 | h1
      · exact ⟨rand k % 101, by rw [h1], Nat.lt_succ_iff.mp (Nat.mod_lt _ (by omega))⟩
      · exact ih htl (k + 1) o h1

/-! ## Theorems -/

/-- C1: every operator action's mutation handlers never write a task status
into the displayed queue: `onSuccess` only invalidates the machine-queue
cache key (leaving the displayed queue and toasts untouched), and `onError`
only appends an error toast, leaving the displayed queue and the cache
untouched until the next poll. -/
theorem operator_actions_never_write_status_locally
    (k : ActionKind) (d : Option String) (s : OperatorViewState) :
    (onActionSuccess k s).displayedQueue = s.displayedQueue ∧
    (onActionSuccess k s).invalidatedKeys =
      s.invalidatedKeys ++ [machineQueueKey s.machineIdCode] ∧
    (onActionSuccess k s).toasts = s.toasts ∧
    (onActionError k d s).displayedQueue = s.displayedQueue ∧
    (onActionError k d s).invalidatedKeys = s.invalidatedKeys ∧
    (onActionError k d s).toasts = s.toasts ++ [d.getD (actionErrorToast k)] :=
  ⟨rfl, rfl, rfl, rfl, rfl, rfl⟩

/-- C2 counterexample: for a queue whose current job is `in_progress`, the
footer renders only PAUSE and FINISH; no report-issue control is offered. -/
theorem report_issue_not_offered_in_progress :
    FooterButton.reportIssueBtn ∉ footerButtons
      { machine_name := "M1"
        current_job := some { id := 7, job_id_code := "J107", product_name := some "Cap"
                              quantity_to_produce := 10, priority := 1
                              status := "in_progress" }
        next_task_in_sequence := none
        is_next_task_ready := false
        waiting_for := none } ∧
    footerButtons
      { machine_name := "M1"
        current_job := some { id := 7, job_id_code := "J107", product_name := some "Cap"
                              quantity_to_produce := 10, priority := 1
                              status := "in_progress" }
        next_task_in_sequence := none
        is_next_task_ready := false
        waiting_for := none } =
      [FooterButton.pauseBtn 7, FooterButton.finishBtn 7] := by decide

/-- C2 amended: the report-issue action is offered when the current job's
status is `paused` or `blocked` (not `in_progress`); the report-issue
request carries a mandatory non-empty reason chosen from the fixed
enumerated list, and submission is impossible with an empty reason. -/
theorem report_issue_offered_paused_blocked
    (q : MachineQueue) (j : OperatorJob)
    (hc : q.current_job = some j)
    (hs : strToLower j.status = "paused" ∨ strToLower j.status = "blocked") :
    FooterButton.reportIssueBtn ∈ footerButtons q ∧
    (∀ r, modalSubmit r = none ↔ r = "") ∧
    (∀ r s, r ∈ modalSelectableReasons → modalSubmit r = some s →
      s ∈ reportIssueReasons) ∧
    (∀ r p, handleReportIssue q r = some p → p = (j.id, r) ∧ r ≠ "") := by
  refine ⟨?_, ?_, ?_, ?_⟩
  · rcases hs with h | h <;> simp [footerButtons, hc, h]
  · intro r
    by_cases hr : r = "" <;> simp [modalSubmit, hr]
  · intro r s hmem hsub
    by_cases hr : r = ""
    · simp [modalSubmit, hr] at hsub
    · simp [modalSubmit, hr] at hsub
      simp [modalSelectableReasons, hr] at hmem
      rw [← hsub]
      exact hmem
  · intro r p hp
    by_cases hr : r = "" <;> simp [handleReportIssue, hc, hr] at hp
    exact ⟨hp.symm, hr⟩

/-- C2 witness: the footer of a queue with a paused current job offers the
report-issue control. -/
theorem report_issue_offered_paused_blocked_witness :
    FooterButton.reportIssueBtn ∈ footerButtons
      { machine_name := "M1"
        current_job := some { id := 7, job_id_code := "J107", product_name := some "Cap"
                              quantity_to_produce := 10, priority := 1
                              status := "paused" }
        next_task_in_sequence := none
        is_next_task_ready := false
        waiting_for := none } :=
  (report_issue_offered_paused_blocked _ _ rfl (Or.inl (by decide))).1

/-- C3: with no current job, a next job that is not ready, and a
`waiting_for` descriptor, the page renders the waiting-for-predecessor-step
explanation built from the descriptor and the footer offers no action
button (in particular no START control). -/
theorem waiting_state_banner_and_no_buttons
    (q : MachineQueue) (nj : OperatorJob) (w : WaitingInfo)
    (hc : q.current_job = none)
    (hn : q.next_task_in_sequence = some nj)
    (hready : q.is_next_task_ready = false)
    (hw : q.waiting_for = some w) :
    waitingBanner q =
      some ("Previous step '" ++ w.step_name ++ "' is not complete yet.") ∧
    footerButtons q = [] := by
  constructor
  · simp [waitingBanner, hc, hn, hready, hw]
  · simp [footerButtons, hc, hn, hready]

/-- C3 witness: a concrete waiting queue renders the banner and no
buttons. -/
theorem waiting_state_banner_and_no_buttons_witness :
    waitingBanner
      { machine_name := "M1"
        current_job := none
        next_task_in_sequence := some { id := 9, job_id_code := "J9", product_name := none
                                        quantity_to_produce := 2, priority := 2
                                        status := "scheduled" }
        is_next_task_ready := false
        waiting_for := some { step_name := "Cutting", status := "in_progress" } } =
      some ("Previous step '" ++ "Cutting" ++ "' is not complete yet.") ∧
    footerButtons
      { machine_name := "M1"
        current_job := none
        next_task_in_sequence := some { id := 9, job_id_code := "J9", product_name := none
                                        quantity_to_produce := 2, priority := 2
                                        status := "scheduled" }
        is_next_task_ready := false
        waiting_for := some { step_name := "Cutting", status := "in_progress" } } = [] :=
  waiting_state_banner_and_no_buttons
    { machine_name := "M1"
      current_job := none
      next_task_in_sequence := some { id := 9, job_id_code := "J9", product_name := none
                                      quantity_to_produce := 2, priority := 2
                                      status := "scheduled" }
      is_next_task_ready := false
      waiting_for := some { step_name := "Cutting", status := "in_progress" } }
    { id := 9, job_id_code := "J9", product_name := none
      quantity_to_produce := 2, priority := 2, status := "scheduled" }
    { step_name := "Cutting", status := "in_progress" }
    rfl rfl rfl rfl

/-- C4: on a 401 whose request passes the interceptor's guard (URL contains
neither '/auth/refresh' nor '/auth/login' — true of every non-login,
non-refresh endpoint of this client — and `_retry` unset), exactly one
refresh is attempted; on refresh success the new token is stored and the
request is replayed with it; on refresh failure the stored token is removed
and the location becomes the login page; a second 401 on the replayed
request (whose `_retry` flag is set) passes through with no further
refresh. -/
theorem refresh_once_on_401
    (req : HttpRequest) (st : ClientAuthState)
    (hr : strIncludes req.url "/auth/refresh" = false)
    (hl : strIncludes req.url "/auth/login" = false)
    (hretry : req.retryFlag = false) :
    (∀ newTok,
      responseInterceptor req 401 (some newTok) st =
        { state := { st with storedToken := some newTok }
          outcome := InterceptorOutcome.replay
            { req with retryFlag := true, authHeader := some ("Bearer " ++ newTok) }
          refreshAttempts := 1 }) ∧
    (responseInterceptor req 401 none st =
      { state := { storedToken := none, location := "/login" }
        outcome := InterceptorOutcome.rejectRefreshError
        refreshAttempts := 1 }) ∧
    (∀ newTok refresh2 st2,
      responseInterceptor
        { req with retryFlag := true, authHeader := some ("Bearer " ++ newTok) }
        401 refresh2 st2 =
        { state := st2, outcome := InterceptorOutcome.rejectOriginal
          refreshAttempts := 0 }) := by
  refine ⟨fun newTok => ?_, ?_, fun newTok refresh2 st2 => ?_⟩ <;>
    simp [responseInterceptor, hr, hl, hretry]

/-- C4 witness: a concrete 401 on `GET /api/orders/` with a failing refresh
clears the token and redirects to the login page. -/
theorem refresh_once_on_401_witness :
    responseInterceptor
      { url := "/api/orders/", retryFlag := false, authHeader := some "Bearer old" }
      401 none
      { storedToken := some "old", location := "/dashboard" } =
      { state := { storedToken := none, location := "/login" }
        outcome := InterceptorOutcome.rejectRefreshError
        refreshAttempts := 1 } :=
  (refresh_once_on_401 _ _ (by decide) (by decide) rfl).2.1

/-- C5 counterexample: a well-formed token that decodes to a payload with
no role claim (`decode` returns `some none`) still sets the token and
durable storage: starting logged out, `isAuthenticated` becomes true and
storage changes, although no role claim could be decoded from the token. -/
theorem login_no_role_claim_sets_state :
    login (fun _ => some none) "header.payload.sig"
        { token := none, userRole := none, storage := none } =
      { token := some "header.payload.sig", userRole := none
        storage := some "header.payload.sig" } ∧
    isAuthenticated
      (login (fun _ => some none) "header.payload.sig"
        { token := none, userRole := none, storage := none }) = true ∧
    (login (fun _ => some none) "header.payload.sig"
        { token := none, userRole := none, storage := none }).storage ≠ none := by
  refine ⟨rfl, rfl, ?_⟩
  simp [login, isAuthenticated]

/-- C5 amended: for every token string on which decoding throws
(structurally malformed token), `login` leaves the auth state and durable
storage unchanged; in particular a previously logged-out client stays
unauthenticated and the failure is only logged. -/
theorem login_throwing_decode_no_state_change
    (decode : String → Option (Option String)) (tok : String) (s : AuthState)
    (h : decode tok = none) :
    login decode tok s = s ∧
    (isAuthenticated s = false → isAuthenticated (login decode tok s) = false) ∧
    (login decode tok s).storage = s.storage := by
  simp [login, h]

/-- C5 witness: logging in with a token whose decoding throws, from the
logged-out state, leaves the state unchanged. -/
theorem login_throwing_decode_no_state_change_witness :
    login (fun _ => none) "garbage" { token := none, userRole := none, storage := none } =
      { token := none, userRole := none, storage := none } :=
  (login_throwing_decode_no_state_change (fun _ => none) "garbage" _ rfl).1

/-- C6 (code bug): on the schedule page, a successful delete or update of a
scheduled task invalidates only the key `'visibleTasks'`, while the
scheduled-task list is fetched under `'scheduledTasks'` — the fetched key
is never invalidated. -/
theorem schedule_mutation_invalidates_wrong_key :
    (handleDeleteScheduledTask 1 true ServerOutcome.ok).invalidatedKeys =
      ["visibleTasks"] ∧
    schedulePageQueryKey ∉
      (handleDeleteScheduledTask 1 true ServerOutcome.ok).invalidatedKeys ∧
    (handleEditScheduledTask 1 ServerOutcome.ok).invalidatedKeys =
      ["visibleTasks"] ∧
    schedulePageQueryKey ∉
      (handleEditScheduledTask 1 ServerOutcome.ok).invalidatedKeys := by decide

/-- C7: the downtime write-then-read pipeline (modal conversion, API-layer
conversion with the hard-coded −5:30 shift, local rendering) is the
identity on wall-clock times, for any fixed viewer offset. -/
theorem downtime_roundtrip_identity (localOffset wall : ℤ) :
    downtimeRoundTrip localOffset wall = wall := by
  simp only [downtimeRoundTrip, renderLocale, apiConvertIstToUtcIso,
    modalConvertIstToUtcIso, istOffsetMinutes]
  omega

/-- C8: the dashboard machine-utilization KPI is
`round(100 × (distinct machines with an in-progress scheduled task) ÷
(machines with is_active))`, and 0 when no machine is active. -/
theorem utilization_formula (machines : List DashMachine) (tasks : List DashTask) :
    utilization machines tasks =
      if (machines.filter (fun m => m.is_active)).length = 0 then 0
      else round ((100 *
          (((tasks.filter (fun t => strToLower t.status = "in_progress")).map
            (fun t => t.assigned_machine_code)).toFinset.card : ℚ)) /
        ((machines.filter (fun m => m.is_active)).length : ℚ)) := by
  unfold utilization machinesInProgressCount
  rcases Nat.eq_zero_or_pos (machines.filter (fun m => m.is_active)).length with h | h
  · simp [h]
  · rw [if_pos h, if_neg (Nat.pos_iff_ne_zero.mp h)]
    congr 1
    rw [List.card_toFinset]
    ring

/-- C9: the three destructive handlers (delete scheduled task, delete
downtime event, cancel operator job) dispatch no request and change nothing
when the confirmation prompt is declined, and dispatch only when it is
accepted. -/
theorem destructive_actions_require_confirmation
    (id : Nat) (o : ServerOutcome) (j : OperatorJob) :
    handleDeleteScheduledTask id false o =
      { request := none, invalidatedKeys := [], notice := none } ∧
    handleDeleteDowntimeEvent id false o =
      { request := none, invalidatedKeys := [], notice := none } ∧
    cancelButtonClick j false = none ∧
    (∀ c, (handleDeleteScheduledTask id c o).request.isSome → c = true) ∧
    (∀ c, (handleDeleteDowntimeEvent id c o).request.isSome → c = true) ∧
    (∀ c, (cancelButtonClick j c).isSome → c = true) := by
  refine ⟨by simp [handleDeleteScheduledTask], by simp [handleDeleteDowntimeEvent],
    by simp [cancelButtonClick], ?_, ?_, ?_⟩ <;>
    intro c hc <;> cases c <;>
      simp_all [handleDeleteScheduledTask, handleDeleteDowntimeEvent, cancelButtonClick]

/-- C10: every order returned by `getProductionOrders` has a defined
progress in [0, 100] (given in-range server values), and the function is
not deterministic in the server response: two random streams can give
different results on the same server data. -/
theorem production_orders_progress_defined_and_nondeterministic
    (rand : Nat → Nat) (serverData : List PORecord)
    (h : ∀ o ∈ serverData, ∀ p, o.progress = some p → p ≤ 100) :
    (∀ o ∈ getProductionOrders rand serverData,
      ∃ p, o.progress = some p ∧ p ≤ 100) ∧
    (∃ (sd : List PORecord) (r1 r2 : Nat → Nat),
      getProductionOrders r1 sd ≠ getProductionOrders r2 sd) := by
  constructor
  · exact fillProgress_progress_bounded rand serverData h 0
  · refine ⟨[{ id := 1, progress := none }], fun _ => 0, fun _ => 1, ?_⟩
    simp [getProductionOrders, fillProgress]

/-- C10 witness: a concrete server response with one in-range and one
missing progress value yields defined in-range progress for the first
returned order. -/
theorem production_orders_progress_witness :
    ∃ p, (PORecord.mk 1 (some 50)).progress = some p ∧ p ≤ 100 :=
  (production_orders_progress_defined_and_nondeterministic (fun _ => 7)
      [{ id := 1, progress := some 50 }, { id := 2, progress := none }]
      (by intro o ho p hp
          simp at ho
          rcases ho with h1 | h1 <;> subst h1 <;> simp_all
          omega)).1
    (PORecord.mk 1 (some 50)) (by decide)

end DigiFlow
